import Mathlib

/-!
Verification of the candidate-search pipeline of the `recruiting` repository.

The embedded code:
* `src/app/api/search/route.ts` — the `POST` handler of the search API
  (query validation, embedding call, primary retrieval at threshold 0.3,
  fallback retrieval at threshold 0.0, per-candidate justification
  synthesis, response shaping, error handling);
* the `match_candidates` SQL function (defined in the repository README,
  deployed on the vector store) — filter to non-null embeddings and
  similarity strictly above the threshold, order by ascending distance,
  limit to `match_count` rows.

External services (the JSON body parser, the OpenAI embedding endpoint,
the Supabase RPC transport, the chat-completion endpoint) are modelled as
oracle functions collected in an `Env`; the handler is a pure function of
the `Env` that returns the HTTP response together with a log of the
external calls it made, so that claims of the form "service X is never
invoked" are statable.  The pgvector cosine-distance operator `<=>` is
external to the repository and appears as the parameter `dist` of
`match_candidates`.
-/

namespace Recruiting

/-- A JavaScript value as it can appear in the `query` field of the parsed
request body (route.ts line 22). -/
inductive JsonValue where
  | jstr (s : String)
  | jnum (q : ℚ)
  | jbool (b : Bool)
  | jnull
  | jundefined
  | jobj
deriving DecidableEq

/-- JavaScript truthiness of a `JsonValue` (`!query` in route.ts line 24
is the negation of this). -/
def jsTruthy : JsonValue → Bool
  | .jstr s => !s.isEmpty
  | .jnum q => decide (q ≠ 0)
  | .jbool b => b
  | .jnull => false
  | .jundefined => false
  | .jobj => true

/-- `typeof query === 'string'` (route.ts line 24). -/
def jsTypeofIsString : JsonValue → Bool
  | .jstr _ => true
  | _ => false

/-- Route.ts line 24: `if (!query || typeof query !== 'string')` rejects;
otherwise the (necessarily non-empty string) query is extracted. -/
def extractQuery (v : JsonValue) : Option String :=
  if jsTruthy v && jsTypeofIsString v then
    match v with
    | .jstr s => some s
    | _ => none
  else none

/-- JavaScript `Math.round` on a rational: round half toward positive
infinity. -/
def jsRound (q : ℚ) : ℤ := ⌊q + 1/2⌋

/-- JavaScript `a || d` for numbers: `d` when `a` is falsy (zero), else `a`
(route.ts `item.similarity || 0`). -/
def jsOrQ (q d : ℚ) : ℚ := if q = 0 then d else q

/-- JavaScript `a || d` for strings: `d` when `a` is the empty string,
else `a` (route.ts `item.full_name || 'Unknown'`). -/
def jsOrStr (s d : String) : String := if s = "" then d else s

/-- Truthiness of a nullable string (route.ts `!openai.apiKey`,
`item.linkedin_url && ...`). -/
def jsTruthyOptStr : Option String → Bool
  | some s => !s.isEmpty
  | none => false

/-- Route.ts `...(item.linkedin_url && { linkedinUrl: item.linkedin_url })`:
the field is present exactly when the nullable string is truthy. -/
def jsOptField : Option String → Option String
  | some s => if s = "" then none else some s
  | none => none

/-- JavaScript `s.trim()`: strip leading and trailing whitespace
(space, tab, carriage return, newline — the whitespace characters
relevant to the claims). -/
def jsTrim (s : String) : String :=
  ⟨((s.data.dropWhile Char.isWhitespace).reverse.dropWhile Char.isWhitespace).reverse⟩

/-- JavaScript `s.includes(pat)` for the non-empty patterns used at
route.ts line 83 (substring test via `splitOn`). -/
def jsIncludes (s pat : String) : Bool := (s.splitOn pat).length != 1

/-- A row as the search route receives it from the vector store RPC
(`SearchResponse` in route.ts lines 11–18). -/
structure SearchResponse where
  id : String
  full_name : String
  cv_info : String
  similarity : ℚ
  linkedin_url : Option String
  cv_url : Option String
deriving DecidableEq

/-- A shaped result as returned to the caller (route.ts lines 148–155 and
200–207). -/
structure MatchResult where
  id : String
  name : String
  accuracy : ℤ
  reason : String
  linkedinUrl : Option String
  cvUrl : Option String
deriving DecidableEq

/-- Sentinel justification (route.ts lines 120 and 172). -/
def noInfoSentinel : String := "No additional information available"

/-- Default display name (route.ts lines 150 and 202). -/
def unknownName : String := "Unknown"

/-- Route.ts lines 122 / 174: `if (item.cv_info && item.cv_info.trim())` —
the synthesizer runs only for a candidate with non-blank profile text. -/
def shouldSynthesize (item : SearchResponse) : Bool :=
  !item.cv_info.isEmpty && !(jsTrim item.cv_info).isEmpty

/-- The per-candidate justification (route.ts lines 120–146 / 172–198).
`chat query cv_info` models the chat-completion call: `.error` a thrown
call failure, `.ok none` a response with no content, `.ok (some c)` a
response with content `c`.  The code computes
`choices[0]?.message?.content?.trim() || item.cv_info` inside a
`try`/`catch` whose handler also falls back to `item.cv_info`. -/
def candidateReason (chat : String → String → Except String (Option String))
    (query : String) (item : SearchResponse) : String :=
  if shouldSynthesize item then
    match chat query item.cv_info with
    | .error _ => item.cv_info
    | .ok none => item.cv_info
    | .ok (some content) =>
      if jsTrim content = "" then item.cv_info else jsTrim content
  else noInfoSentinel

/-- The chat-completion calls issued while shaping one candidate: exactly
one when the profile text is non-blank, none otherwise. -/
def synthCalls (query : String) (item : SearchResponse) : List (String × String) :=
  if shouldSynthesize item then [(query, item.cv_info)] else []

/-- Response shaping for one retrieved row (route.ts lines 148–155 /
200–207; the `reason` computation is lines 120–146 / 172–198). -/
def toMatchResult (chat : String → String → Except String (Option String))
    (query : String) (item : SearchResponse) : MatchResult :=
  { id := item.id
    name := jsOrStr item.full_name unknownName
    accuracy := jsRound (jsOrQ item.similarity 0 * 100)
    reason := candidateReason chat query item
    linkedinUrl := jsOptField item.linkedin_url
    cvUrl := jsOptField item.cv_url }

/-- The external collaborators of the route, as oracles.
`body` is the outcome of `await request.json()` followed by the
destructuring of the `query` field (`.error` when parsing throws);
`apiKey` is `process.env.OPENAI_API_KEY`; `embed` is
`openai.embeddings.create` returning the embedding vector (`.error` when
the call throws); `rpc emb threshold count` is
`client.rpc('match_candidates', ...)` (`.error msg` the returned supabase
error); `chat` is `openai.chat.completions.create` as in
`candidateReason`. -/
structure Env where
  apiKey : Option String
  body : Except String JsonValue
  embed : String → Except String (List ℚ)
  rpc : List ℚ → ℚ → Nat → Except String (List SearchResponse)
  chat : String → String → Except String (Option String)

/-- The HTTP response of the route: a 200 JSON array of results, or a
structured `{ error }` object with a status. -/
inductive ApiResponse where
  | ok (candidates : List MatchResult)
  | err (status : Nat) (message : String)
deriving DecidableEq

/-- Log of the external calls a request made, in program order. -/
structure CallLog where
  embedCalls : List String
  countCalls : Nat
  rpcCalls : List (List ℚ × ℚ × Nat)
  chatCalls : List (String × String)
deriving DecidableEq

def emptyLog : CallLog := ⟨[], 0, [], []⟩

/-- Primary retrieval threshold (route.ts line 66). -/
def primaryThreshold : ℚ := 3/10

/-- Fallback retrieval threshold (route.ts line 104). -/
def fallbackThreshold : ℚ := 0

/-- Retrieval limit (route.ts lines 67 and 105). -/
def matchLimit : Nat := 5

def invalidQueryMessage : String := "Query is required and must be a string"

def noKeyMessage : String := "OpenAI API key is not configured"

def fnMissingMessage : String :=
  "Database function match_candidates not found. Please run the SQL setup from README.md"

def rpcFallbackMessage : String := "Failed to search candidates"

def fnSubstrA : String := "function"

def fnSubstrB : String := "does not exist"

/-- The `POST` handler of `src/app/api/search/route.ts`, as a pure
function of the external-call oracles.  Returns the response together
with the log of external calls.  The count query of lines 51–60 only
feeds `console.log` and is recorded as `countCalls`.  When the primary
retrieval returns zero rows and the fallback errors or also returns zero
rows, control falls through to the shaping of lines 169–211 over the
empty `data`, producing the 200 empty array. -/
def POST (env : Env) : ApiResponse × CallLog :=
  match env.body with
  | .error e => (.err 500 e, emptyLog)
  | .ok bodyQuery =>
    match extractQuery bodyQuery with
    | none => (.err 400 invalidQueryMessage, emptyLog)
    | some query =>
      if !jsTruthyOptStr env.apiKey then
        (.err 500 noKeyMessage, emptyLog)
      else
        match env.embed query with
        | .error e => (.err 500 e, { emptyLog with embedCalls := [query] })
        | .ok queryEmbedding =>
          let log0 : CallLog :=
            { embedCalls := [query], countCalls := 1, rpcCalls := [], chatCalls := [] }
          match env.rpc queryEmbedding primaryThreshold matchLimit with
          | .error msg =>
            let log :=
              { log0 with rpcCalls := [(queryEmbedding, primaryThreshold, matchLimit)] }
            if jsIncludes msg fnSubstrA || jsIncludes msg fnSubstrB then
              (.err 500 fnMissingMessage, log)
            else
              (.err 500 (jsOrStr msg rpcFallbackMessage), log)
          | .ok data =>
            if data.isEmpty then
              let log1 :=
                { log0 with rpcCalls :=
                    [(queryEmbedding, primaryThreshold, matchLimit),
                     (queryEmbedding, fallbackThreshold, matchLimit)] }
              match env.rpc queryEmbedding fallbackThreshold matchLimit with
              | .error _ => (.ok [], log1)
              | .ok fallbackData =>
                if fallbackData.isEmpty then
                  (.ok [], log1)
                else
                  (.ok (fallbackData.map (toMatchResult env.chat query)),
                   { log1 with chatCalls := (fallbackData.map (synthCalls query)).flatten })
            else
              (.ok (data.map (toMatchResult env.chat query)),
               { log0 with
                 rpcCalls := [(queryEmbedding, primaryThreshold, matchLimit)],
                 chatCalls := (data.map (synthCalls query)).flatten })

/-- A stored candidate record (README `CREATE TABLE candidates`): the
embedding is nullable. -/
structure CandidateRecord where
  id : String
  name : String
  cv_info : String
  embedding : Option (List ℚ)
  linkedin_url : Option String
  cv_url : Option String
deriving DecidableEq

/-- A row of the `RETURNS TABLE` of `match_candidates` (README SQL). -/
structure StoreRow where
  id : String
  name : String
  cv_info : String
  similarity : ℚ
  linkedin_url : Option String
  cv_url : Option String
deriving DecidableEq

/-- The `match_candidates` SQL function (README):
select candidates whose `embedding IS NOT NULL` and whose similarity
`1 - (embedding <=> query_embedding)` is strictly greater than
`match_threshold`, ordered by ascending distance `embedding <=>
query_embedding`, limited to `match_count` rows.  The pgvector operator
`<=>` is the parameter `dist`. -/
def match_candidates (dist : List ℚ → List ℚ → ℚ) (table : List CandidateRecord)
    (query_embedding : List ℚ) (match_threshold : ℚ) (match_count : Nat) :
    List StoreRow :=
  (((((table.filterMap fun c =>
    match c.embedding with
    | none => none
    | some e => some (c, dist e query_embedding)).filter
      fun p => decide (match_threshold < 1 - p.2)).mergeSort
      fun a b => decide (a.2 ≤ b.2)).take match_count).map
    fun p =>
      { id := p.1.id
        name := p.1.name
        cv_info := p.1.cv_info
        similarity := 1 - p.2
        linkedin_url := p.1.linkedin_url
        cv_url := p.1.cv_url })

/-- The RPC delivers each `match_candidates` row to the route as a
`SearchResponse`; the route reads the store's name column through its
`full_name` field (route.ts line 13 notes the deployed schema uses
`full_name` where the README SQL writes `name`). -/
def storeRowToResponse (r : StoreRow) : SearchResponse :=
  { id := r.id
    full_name := r.name
    cv_info := r.cv_info
    similarity := r.similarity
    linkedin_url := r.linkedin_url
    cv_url := r.cv_url }

/-! ### Helper lemmas -/

theorem extractQuery_jstr {q : String} (hq : q ≠ "") :
    extractQuery (JsonValue.jstr q) = some q := by
  simp [extractQuery, jsTruthy, jsTypeofIsString, String.isEmpty_iff, hq]

theorem jsOrQ_zero (q : ℚ) : jsOrQ q 0 = q := by
  unfold jsOrQ
  split
  · next h => exact h.symm
  · rfl

/-- Characterization of the success path with a non-empty result set:
whether the rows came from the primary retrieval or from the fallback,
the response is the per-row shaping in row order, and the logged
chat-completion calls are exactly those of the non-blank profiles. -/
theorem POST_ok_shape (env : Env) (q : String) (emb : List ℚ)
    (data : List SearchResponse)
    (hbody : env.body = .ok (.jstr q)) (hq : q ≠ "")
    (hkey : jsTruthyOptStr env.apiKey = true)
    (hemb : env.embed q = .ok emb)
    (hne : data ≠ [])
    (hretr : env.rpc emb primaryThreshold matchLimit = .ok data ∨
      (env.rpc emb primaryThreshold matchLimit = .ok [] ∧
       env.rpc emb fallbackThreshold matchLimit = .ok data)) :
    (POST env).1 = .ok (data.map (toMatchResult env.chat q)) ∧
    (POST env).2.chatCalls = (data.map (synthCalls q)).flatten := by
  rcases hretr with hprim | ⟨hprim, hfb⟩
  · constructor <;>
      simp [POST, hbody, extractQuery_jstr hq, hkey, hemb, hprim,
        List.isEmpty_iff, hne]
  · constructor <;>
      simp [POST, hbody, extractQuery_jstr hq, hkey, hemb, hprim, hfb,
        List.isEmpty_iff, hne]

/-! ### Claim theorems -/

/-- C8: for a request body whose `query` field is an empty string,
missing, or any non-string value (that is, `extractQuery` rejects it),
the route returns the 400 `InvalidQuery` error, and neither the
embedding service nor the vector store is called (the call log stays
empty). -/
theorem c8_invalid_query_rejected (env : Env) (v : JsonValue)
    (hbody : env.body = .ok v) (hv : extractQuery v = none) :
    POST env = (.err 400 invalidQueryMessage, emptyLog) := by
  simp [POST, hbody, hv]

/-- C8 witness: a `null` query is rejected with the 400 error and an
empty call log. -/
theorem c8_invalid_query_rejected_witness :
    POST { apiKey := some ("k"), body := .ok .jnull,
           embed := fun _ => .ok [], rpc := fun _ _ _ => .ok [],
           chat := fun _ _ => .ok none } =
      (.err 400 invalidQueryMessage, emptyLog) :=
  c8_invalid_query_rejected _ .jnull rfl rfl

/-- C10: a request body that fails to parse as JSON produces a
500-status structured error carrying the parse error's message, not the
400 response; and conversely every 400 `InvalidQuery` response comes
from a body that did parse. -/
theorem c10_parse_failure_is_500 (env : Env) (e : String)
    (hbody : env.body = .error e) :
    POST env = (.err 500 e, emptyLog) ∧
    ∀ env2 m, (POST env2).1 = .err 400 m → ∃ v, env2.body = .ok v := by
  refine ⟨by simp [POST, hbody], ?_⟩
  intro env2 m h
  cases h2 : env2.body with
  | error e2 => simp [POST, h2] at h
  | ok v => exact ⟨v, rfl⟩

/-- C10 witness: a concrete parse failure yields the 500 error with the
parse message. -/
theorem c10_parse_failure_is_500_witness :
    POST { apiKey := some ("k"), body := .error ("bad json"),
           embed := fun _ => .ok [], rpc := fun _ _ _ => .ok [],
           chat := fun _ _ => .ok none } =
        (.err 500 ("bad json"), emptyLog) ∧
    ∀ env2 m, (POST env2).1 = .err 400 m → ∃ v, env2.body = .ok v :=
  c10_parse_failure_is_500 _ ("bad json") rfl

/-- C5: when the embedding credential is absent (falsy API key) or the
embedding call fails, the route aborts with a 500-status structured
error and the vector store RPC is never invoked (no retrieval call in
the log), and no chat call is made either, so no partial results are
possible. -/
theorem c5_embed_failure_aborts (env : Env) (q : String)
    (hbody : env.body = .ok (.jstr q)) (hq : q ≠ "")
    (hfail : jsTruthyOptStr env.apiKey = false ∨
      ∃ e, env.embed q = .error e) :
    ∃ msg log, POST env = (.err 500 msg, log) ∧
      log.rpcCalls = [] ∧ log.chatCalls = [] := by
  rcases hfail with hkey | ⟨e, hemb⟩
  · exact ⟨noKeyMessage, emptyLog,
      by simp [POST, hbody, extractQuery_jstr hq, hkey], rfl, rfl⟩
  · cases hkey : jsTruthyOptStr env.apiKey with
    | false => exact ⟨noKeyMessage, emptyLog,
        by simp [POST, hbody, extractQuery_jstr hq, hkey], rfl, rfl⟩
    | true => exact ⟨e, { emptyLog with embedCalls := [q] },
        by simp [POST, hbody, extractQuery_jstr hq, hkey, hemb], rfl, rfl⟩

/-- C5 witness: with the API key absent, a concrete request aborts with
a 500 error and an empty retrieval log. -/
theorem c5_embed_failure_aborts_witness :
    ∃ msg log,
      POST { apiKey := none, body := .ok (.jstr ("react dev")),
             embed := fun _ => .ok [], rpc := fun _ _ _ => .ok [],
             chat := fun _ _ => .ok none } = (.err 500 msg, log) ∧
      log.rpcCalls = [] ∧ log.chatCalls = [] :=
  c5_embed_failure_aborts _ ("react dev") rfl (by decide) (Or.inl rfl)

/-- C1: for a valid non-empty string query whose primary retrieval at
threshold 3/10 returns zero rows, the route always performs the fallback
retrieval at threshold 0 with the same limit (both calls appear in the
log, in order, with `matchLimit = 5`), and if the fallback also returns
zero rows the response is the 200 success empty array, not an error. -/
theorem c1_fallback_on_empty_primary (env : Env) (q : String) (emb : List ℚ)
    (hbody : env.body = .ok (.jstr q)) (hq : q ≠ "")
    (hkey : jsTruthyOptStr env.apiKey = true)
    (hemb : env.embed q = .ok emb)
    (hprim : env.rpc emb primaryThreshold matchLimit = .ok []) :
    (POST env).2.rpcCalls =
      [(emb, primaryThreshold, matchLimit), (emb, fallbackThreshold, matchLimit)] ∧
    (env.rpc emb fallbackThreshold matchLimit = .ok [] →
      (POST env).1 = .ok []) := by
  cases hfb : env.rpc emb fallbackThreshold matchLimit with
  | error msg =>
    refine ⟨?_, ?_⟩
    · simp [POST, hbody, extractQuery_jstr hq, hkey, hemb, hprim, hfb]
    · intro h
      exact absurd h (by simp)
  | ok fd =>
    cases fd with
    | nil =>
      refine ⟨?_, fun _ => ?_⟩ <;>
        simp [POST, hbody, extractQuery_jstr hq, hkey, hemb, hprim, hfb]
    | cons a t =>
      refine ⟨?_, ?_⟩
      · simp [POST, hbody, extractQuery_jstr hq, hkey, hemb, hprim, hfb]
      · intro h
        exact absurd h (by simp)

/-- C1 witness: a concrete environment where both retrievals return zero
rows logs both calls and answers with the empty success array. -/
theorem c1_fallback_on_empty_primary_witness :
    (POST { apiKey := some ("k"), body := .ok (.jstr ("niche role")),
            embed := fun _ => .ok [1], rpc := fun _ _ _ => .ok [],
            chat := fun _ _ => .ok none }).2.rpcCalls =
      [([1], primaryThreshold, matchLimit), ([1], fallbackThreshold, matchLimit)] ∧
    ((fun _ _ _ => (.ok [] : Except String (List SearchResponse))) [(1:ℚ)]
        fallbackThreshold matchLimit = .ok [] →
      (POST { apiKey := some ("k"), body := .ok (.jstr ("niche role")),
              embed := fun _ => .ok [1], rpc := fun _ _ _ => .ok [],
              chat := fun _ _ => .ok none }).1 = .ok []) :=
  c1_fallback_on_empty_primary _ ("niche role") [1] rfl (by decide) rfl rfl rfl

/-- C9: when the primary retrieval returns zero rows and the fallback
retrieval call itself fails with a store error, the request does not
abort: the response is the 200 success empty array, with both retrieval
calls logged. -/
theorem c9_fallback_error_swallowed (env : Env) (q : String) (emb : List ℚ)
    (msg : String)
    (hbody : env.body = .ok (.jstr q)) (hq : q ≠ "")
    (hkey : jsTruthyOptStr env.apiKey = true)
    (hemb : env.embed q = .ok emb)
    (hprim : env.rpc emb primaryThreshold matchLimit = .ok [])
    (hfb : env.rpc emb fallbackThreshold matchLimit = .error msg) :
    POST env = (.ok [],
      { embedCalls := [q], countCalls := 1,
        rpcCalls := [(emb, primaryThreshold, matchLimit),
                     (emb, fallbackThreshold, matchLimit)],
        chatCalls := [] }) := by
  simp [POST, hbody, extractQuery_jstr hq, hkey, hemb, hprim, hfb]

/-- C9 witness: a concrete fallback store failure still yields the 200
empty success array. -/
theorem c9_fallback_error_swallowed_witness :
    POST { apiKey := some ("k"), body := .ok (.jstr ("niche role")),
           embed := fun _ => .ok [1],
           rpc := fun _ t _ => if t = primaryThreshold then .ok [] else .error ("down"),
           chat := fun _ _ => .ok none } =
      (.ok [],
        { embedCalls := [("niche role")], countCalls := 1,
          rpcCalls := [([1], primaryThreshold, matchLimit),
                       ([1], fallbackThreshold, matchLimit)],
          chatCalls := [] }) :=
  c9_fallback_error_swallowed _ ("niche role") [1] ("down") rfl (by decide) rfl rfl
    (by norm_num) (by norm_num [primaryThreshold, fallbackThreshold])

/-- C3: a justification-synthesis failure for one retrieved candidate is
never surfaced as a request failure: the response is still the 200
success shaping of every retrieved row (on the primary or the fallback
path), the failing candidate's `reason` falls back to its raw
`cv_info`, and every sibling whose synthesis call succeeds with
non-blank content still receives that synthesized text. -/
theorem c3_synthesis_failure_isolated (env : Env) (q : String) (emb : List ℚ)
    (data : List SearchResponse) (item : SearchResponse) (e : String)
    (hbody : env.body = .ok (.jstr q)) (hq : q ≠ "")
    (hkey : jsTruthyOptStr env.apiKey = true)
    (hemb : env.embed q = .ok emb)
    (hne : data ≠ [])
    (hretr : env.rpc emb primaryThreshold matchLimit = .ok data ∨
      (env.rpc emb primaryThreshold matchLimit = .ok [] ∧
       env.rpc emb fallbackThreshold matchLimit = .ok data))
    (_hitem : item ∈ data)
    (hsyn : shouldSynthesize item = true)
    (hfail : env.chat q item.cv_info = .error e) :
    (POST env).1 = .ok (data.map (toMatchResult env.chat q)) ∧
    (toMatchResult env.chat q item).reason = item.cv_info ∧
    ∀ other ∈ data, shouldSynthesize other = true →
      ∀ s, env.chat q other.cv_info = .ok (some s) → jsTrim s ≠ "" →
        (toMatchResult env.chat q other).reason = jsTrim s := by
  refine ⟨(POST_ok_shape env q emb data hbody hq hkey hemb hne hretr).1, ?_, ?_⟩
  · simp [toMatchResult, candidateReason, hsyn, hfail]
  · intro other _ hsyn2 s hs htrim
    simp [toMatchResult, candidateReason, hsyn2, hs, htrim]

def itemA : SearchResponse :=
  { id := "a", full_name := "Alice", cv_info := "react dev",
    similarity := 9/10, linkedin_url := none, cv_url := none }

def itemB : SearchResponse :=
  { id := "b", full_name := "Bob", cv_info := "node dev",
    similarity := 8/10, linkedin_url := none, cv_url := none }

def chatC3 : String → String → Except String (Option String) :=
  fun _ info =>
    if info = "react dev" then .error ("rate limit")
    else .ok (some ("good match"))

def envC3 : Env :=
  { apiKey := some ("k"), body := .ok (.jstr ("frontend")),
    embed := fun _ => .ok [1],
    rpc := fun _ _ _ => .ok [itemA, itemB],
    chat := chatC3 }

/-- C3 witness: in a concrete two-candidate environment where the chat
call fails for the first candidate only, the request succeeds, the first
candidate falls back to its raw profile text and the second keeps its
synthesized justification. -/
theorem c3_synthesis_failure_isolated_witness :
    (POST envC3).1 = .ok ([itemA, itemB].map (toMatchResult envC3.chat ("frontend"))) ∧
    (toMatchResult envC3.chat ("frontend") itemA).reason = itemA.cv_info ∧
    ∀ other ∈ [itemA, itemB], shouldSynthesize other = true →
      ∀ s, envC3.chat ("frontend") other.cv_info = .ok (some s) → jsTrim s ≠ "" →
        (toMatchResult envC3.chat ("frontend") other).reason = jsTrim s :=
  c3_synthesis_failure_isolated envC3 ("frontend") [1] [itemA, itemB] itemA
    ("rate limit") rfl (by decide) rfl rfl (by simp) (Or.inl rfl)
    (List.mem_cons_self _ _) (by decide) rfl

/-- C4: a retrieved candidate whose profile text is empty or whitespace
only gets the fixed sentinel justification, and no chat-completion call
for that profile text ever appears in the call log (the synthesizer is
never invoked for that candidate), while the request succeeds with the
full shaped row list. -/
theorem c4_blank_profile_sentinel (env : Env) (q : String) (emb : List ℚ)
    (data : List SearchResponse) (item : SearchResponse)
    (hbody : env.body = .ok (.jstr q)) (hq : q ≠ "")
    (hkey : jsTruthyOptStr env.apiKey = true)
    (hemb : env.embed q = .ok emb)
    (hne : data ≠ [])
    (hretr : env.rpc emb primaryThreshold matchLimit = .ok data ∨
      (env.rpc emb primaryThreshold matchLimit = .ok [] ∧
       env.rpc emb fallbackThreshold matchLimit = .ok data))
    (_hitem : item ∈ data)
    (hblank : jsTrim item.cv_info = "") :
    (POST env).1 = .ok (data.map (toMatchResult env.chat q)) ∧
    (toMatchResult env.chat q item).reason = noInfoSentinel ∧
    ∀ p ∈ (POST env).2.chatCalls, p.2 ≠ item.cv_info := by
  obtain ⟨hok, hcalls⟩ := POST_ok_shape env q emb data hbody hq hkey hemb hne hretr
  have hsyn : shouldSynthesize item = false := by
    unfold shouldSynthesize
    rw [hblank]
    simp
    intro _
    decide
  refine ⟨hok, ?_, ?_⟩
  · simp [toMatchResult, candidateReason, hsyn]
  · intro p hp
    rw [hcalls, List.mem_flatten] at hp
    obtain ⟨l, hl, hpl⟩ := hp
    rw [List.mem_map] at hl
    obtain ⟨it2, hit2, rfl⟩ := hl
    unfold synthCalls at hpl
    by_cases h2 : shouldSynthesize it2 = true
    · rw [if_pos h2] at hpl
      have hp2 : p = (q, it2.cv_info) := List.mem_singleton.mp hpl
      subst hp2
      intro hcontra
      have h3 := h2
      unfold shouldSynthesize at h3
      simp at h3
      have htr := h3.2
      have hc2 : it2.cv_info = item.cv_info := hcontra
      rw [hc2, hblank] at htr
      exact absurd htr (by decide)
    · rw [if_neg h2] at hpl
      cases hpl

def itemBlank : SearchResponse :=
  { id := "c", full_name := "Cara", cv_info := "  ",
    similarity := 7/10, linkedin_url := none, cv_url := none }

def envC4 : Env :=
  { apiKey := some ("k"), body := .ok (.jstr ("frontend")),
    embed := fun _ => .ok [1],
    rpc := fun _ _ _ => .ok [itemA, itemBlank],
    chat := chatC3 }

/-- C4 witness: a concrete whitespace-only profile receives the sentinel
justification and its profile text never appears among the logged chat
calls. -/
theorem c4_blank_profile_sentinel_witness :
    (POST envC4).1 = .ok ([itemA, itemBlank].map (toMatchResult envC4.chat ("frontend"))) ∧
    (toMatchResult envC4.chat ("frontend") itemBlank).reason = noInfoSentinel ∧
    ∀ p ∈ (POST envC4).2.chatCalls, p.2 ≠ itemBlank.cv_info :=
  c4_blank_profile_sentinel envC4 ("frontend") [1] [itemA, itemBlank] itemBlank
    rfl (by decide) rfl rfl (by simp) (Or.inl rfl)
    (List.mem_cons_of_mem _ (List.mem_cons_self _ _)) (by decide)

/-! ### Vector-store lemmas -/

theorem match_candidates_mem_spec {dist : List ℚ → List ℚ → ℚ}
    {table : List CandidateRecord} {qe : List ℚ} {t : ℚ} {c : Nat} {row : StoreRow}
    (h : row ∈ match_candidates dist table qe t c) :
    t < row.similarity ∧
    ∃ cand ∈ table, ∃ e, cand.embedding = some e ∧
      row.id = cand.id ∧ row.similarity = 1 - dist e qe := by
  unfold match_candidates at h
  rw [List.mem_map] at h
  obtain ⟨p, hp, rfl⟩ := h
  have hp2 := List.mem_of_mem_take hp
  have hp3 := (List.mergeSort_perm _ _).mem_iff.mp hp2
  rw [List.mem_filter] at hp3
  obtain ⟨hp4, hp5⟩ := hp3
  rw [List.mem_filterMap] at hp4
  obtain ⟨cand, hcand, hsome⟩ := hp4
  have hp6 : t < 1 - p.2 := by simpa using hp5
  cases he : cand.embedding with
  | none => rw [he] at hsome; cases hsome
  | some e =>
    rw [he] at hsome
    have hpe : p = (cand, dist e qe) := (Option.some.inj hsome).symm
    subst hpe
    exact ⟨hp6, cand, hcand, e, he, rfl, rfl⟩

theorem match_candidates_length_le (dist : List ℚ → List ℚ → ℚ)
    (table : List CandidateRecord) (qe : List ℚ) (t : ℚ) (c : Nat) :
    (match_candidates dist table qe t c).length ≤ c := by
  unfold match_candidates
  rw [List.length_map, List.length_take]
  exact min_le_left _ _

theorem match_candidates_pairwise (dist : List ℚ → List ℚ → ℚ)
    (table : List CandidateRecord) (qe : List ℚ) (t : ℚ) (c : Nat) :
    List.Pairwise (fun a b => b.similarity ≤ a.similarity)
      (match_candidates dist table qe t c) := by
  unfold match_candidates
  have htrans : ∀ a b c2 : CandidateRecord × ℚ,
      (fun x y : CandidateRecord × ℚ => decide (x.2 ≤ y.2)) a b = true →
      (fun x y : CandidateRecord × ℚ => decide (x.2 ≤ y.2)) b c2 = true →
      (fun x y : CandidateRecord × ℚ => decide (x.2 ≤ y.2)) a c2 = true := by
    intro a b c2 hab hbc
    simp only [decide_eq_true_eq] at hab hbc ⊢
    exact le_trans hab hbc
  have htotal : ∀ a b : CandidateRecord × ℚ,
      ((fun x y : CandidateRecord × ℚ => decide (x.2 ≤ y.2)) a b ||
       (fun x y : CandidateRecord × ℚ => decide (x.2 ≤ y.2)) b a) = true := by
    intro a b
    simp only [Bool.or_eq_true, decide_eq_true_eq]
    exact le_total _ _
  have hs := @List.sorted_mergeSort (CandidateRecord × ℚ)
    (fun x y => decide (x.2 ≤ y.2)) htrans htotal
    ((table.filterMap fun c =>
      match c.embedding with
      | none => none
      | some e => some (c, dist e qe)).filter fun p => decide (t < 1 - p.2))
  have hpair : List.Pairwise (fun a b : CandidateRecord × ℚ => a.2 ≤ b.2)
      (List.take c (((table.filterMap fun c =>
        match c.embedding with
        | none => none
        | some e => some (c, dist e qe)).filter
          fun p => decide (t < 1 - p.2)).mergeSort
          fun a b => decide (a.2 ≤ b.2))) := by
    apply List.Pairwise.sublist (List.take_sublist _ _)
    exact hs.imp (fun h => by simpa using h)
  exact List.Pairwise.map _ (fun a b hab => by
    show 1 - b.2 ≤ 1 - a.2
    linarith) hpair

theorem jsRound_bounds {s : ℚ} (h0 : 0 < s) (h1 : s ≤ 1) :
    0 ≤ jsRound (s * 100) ∧ jsRound (s * 100) ≤ 100 := by
  unfold jsRound
  constructor
  · exact Int.le_floor.mpr (by push_cast; linarith)
  · have h := Int.floor_lt.mpr (show s * 100 + 1/2 < ((101 : ℤ) : ℚ) by push_cast; linarith)
    omega

/-- For a row retrieved by `match_candidates` with a nonnegative distance
function and nonnegative threshold, the shaped accuracy is the rounded
similarity percentage and lies in [0, 100]. -/
theorem accuracy_of_store_row {dist : List ℚ → List ℚ → ℚ}
    {table : List CandidateRecord} {qe : List ℚ} {t : ℚ} {c : Nat} {srow : StoreRow}
    (hdist : ∀ a b, 0 ≤ dist a b) (ht : 0 ≤ t)
    (hmem : srow ∈ match_candidates dist table qe t c)
    (chat : String → String → Except String (Option String)) (q : String) :
    (toMatchResult chat q (storeRowToResponse srow)).accuracy
        = jsRound (srow.similarity * 100) ∧
      0 ≤ jsRound (srow.similarity * 100) ∧ jsRound (srow.similarity * 100) ≤ 100 := by
  obtain ⟨hts, cand, _hcand, e, _he, _hid, hsim⟩ := match_candidates_mem_spec hmem
  have h0 : 0 < srow.similarity := lt_of_le_of_lt ht hts
  have h1 : srow.similarity ≤ 1 := by
    rw [hsim]
    have := hdist e qe
    linarith
  have hb := jsRound_bounds h0 h1
  refine ⟨?_, hb.1, hb.2⟩
  show jsRound (jsOrQ (storeRowToResponse srow).similarity 0 * 100) = _
  rw [show (storeRowToResponse srow).similarity = srow.similarity from rfl, jsOrQ_zero]

/-! ### Remaining claim theorems -/

/-- C6: `match_candidates` returns at most `match_count` rows, and every
returned row has similarity strictly greater than the threshold and
originates from a table record whose stored embedding is non-null (so a
record with no embedding is never reachable by similarity search). -/
theorem c6_store_contract (dist : List ℚ → List ℚ → ℚ)
    (table : List CandidateRecord) (qe : List ℚ) (t : ℚ) (c : Nat) :
    (match_candidates dist table qe t c).length ≤ c ∧
    ∀ row ∈ match_candidates dist table qe t c,
      t < row.similarity ∧
      ∃ cand ∈ table, ∃ e, cand.embedding = some e ∧
        row.id = cand.id ∧ row.similarity = 1 - dist e qe :=
  ⟨match_candidates_length_le dist table qe t c,
   fun _row hrow => match_candidates_mem_spec hrow⟩

/-- C7: on any success path with a non-empty row list, the shaped results
are in exactly the same order as the rows handed over by the vector
store (their identifier sequences coincide), and the rows
`match_candidates` hands over are sorted by descending similarity. -/
theorem c7_order_preserved (env : Env) (q : String) (emb : List ℚ)
    (data : List SearchResponse)
    (hbody : env.body = .ok (.jstr q)) (hq : q ≠ "")
    (hkey : jsTruthyOptStr env.apiKey = true)
    (hemb : env.embed q = .ok emb)
    (hne : data ≠ [])
    (hretr : env.rpc emb primaryThreshold matchLimit = .ok data ∨
      (env.rpc emb primaryThreshold matchLimit = .ok [] ∧
       env.rpc emb fallbackThreshold matchLimit = .ok data)) :
    (∃ res, (POST env).1 = .ok res ∧
      res.map MatchResult.id = data.map SearchResponse.id) ∧
    ∀ dist table qe t c,
      List.Pairwise (fun a b => b.similarity ≤ a.similarity)
        (match_candidates dist table qe t c) := by
  refine ⟨⟨data.map (toMatchResult env.chat q),
    (POST_ok_shape env q emb data hbody hq hkey hemb hne hretr).1, ?_⟩,
    fun dist table qe t c => match_candidates_pairwise dist table qe t c⟩
  rw [List.map_map]
  rfl

/-- C7 witness: in the concrete two-candidate environment the result ids
follow the store's row order, and store outputs are sorted by descending
similarity. -/
theorem c7_order_preserved_witness :
    (∃ res, (POST envC3).1 = .ok res ∧
      res.map MatchResult.id = [itemA, itemB].map SearchResponse.id) ∧
    ∀ dist table qe t c,
      List.Pairwise (fun a b => b.similarity ≤ a.similarity)
        (match_candidates dist table qe t c) :=
  c7_order_preserved envC3 ("frontend") [1] [itemA, itemB] rfl (by decide)
    rfl rfl (by simp) (Or.inl rfl)

/-- C2: when the vector store is `match_candidates` over any table with a
nonnegative distance function, every result of a successful search has
`accuracy` equal to the rounded similarity percentage of the store row
it was shaped from, and that integer lies in [0, 100]; the row came from
the primary retrieval or from the fallback retrieval. -/
theorem c2_accuracy_rounded (dist : List ℚ → List ℚ → ℚ)
    (table : List CandidateRecord) (env : Env) (q : String) (emb : List ℚ)
    (res : List MatchResult)
    (hdist : ∀ a b, 0 ≤ dist a b)
    (hbody : env.body = .ok (.jstr q)) (hq : q ≠ "")
    (hkey : jsTruthyOptStr env.apiKey = true)
    (hemb : env.embed q = .ok emb)
    (hrpc : env.rpc = fun e t c =>
      .ok ((match_candidates dist table e t c).map storeRowToResponse))
    (hres : (POST env).1 = .ok res) :
    ∀ r ∈ res, ∃ t srow, (t = primaryThreshold ∨ t = fallbackThreshold) ∧
      srow ∈ match_candidates dist table emb t matchLimit ∧
      r.accuracy = jsRound (srow.similarity * 100) ∧
      0 ≤ r.accuracy ∧ r.accuracy ≤ 100 := by
  intro r hr
  by_cases hprim : match_candidates dist table emb primaryThreshold matchLimit = []
  · by_cases hfall : match_candidates dist table emb fallbackThreshold matchLimit = []
    · have hempty : (POST env).1 = .ok [] := by
        have h1 : env.rpc emb primaryThreshold matchLimit = .ok [] := by
          simp only [hrpc, hprim, List.map_nil]
        have h2 : env.rpc emb fallbackThreshold matchLimit = .ok [] := by
          simp only [hrpc, hfall, List.map_nil]
        simp [POST, hbody, extractQuery_jstr hq, hkey, hemb, h1, h2]
      rw [hempty] at hres
      have : res = [] := (ApiResponse.ok.inj hres).symm
      subst this
      cases hr
    · have hne : (match_candidates dist table emb fallbackThreshold matchLimit).map
          storeRowToResponse ≠ [] := by simpa using hfall
      have hshape := POST_ok_shape env q emb
        ((match_candidates dist table emb fallbackThreshold matchLimit).map
          storeRowToResponse) hbody hq hkey hemb hne
        (Or.inr ⟨by simp only [hrpc, hprim, List.map_nil], by simp only [hrpc]⟩)
      have hres2 := hshape.1
      rw [hres] at hres2
      have hresEq := ApiResponse.ok.inj hres2
      rw [hresEq, List.mem_map] at hr
      obtain ⟨sr2, hsr2, rfl⟩ := hr
      rw [List.mem_map] at hsr2
      obtain ⟨srow, hsrow, rfl⟩ := hsr2
      have hacc := accuracy_of_store_row hdist (le_refl 0) hsrow env.chat q
      exact ⟨fallbackThreshold, srow, Or.inr rfl, hsrow, hacc.1,
        hacc.1 ▸ hacc.2.1, hacc.1 ▸ hacc.2.2⟩
  · have hne : (match_candidates dist table emb primaryThreshold matchLimit).map
        storeRowToResponse ≠ [] := by simpa using hprim
    have hshape := POST_ok_shape env q emb
      ((match_candidates dist table emb primaryThreshold matchLimit).map
        storeRowToResponse) hbody hq hkey hemb hne (Or.inl (by simp only [hrpc]))
    have hres2 := hshape.1
    rw [hres] at hres2
    have hresEq := ApiResponse.ok.inj hres2
    rw [hresEq, List.mem_map] at hr
    obtain ⟨sr2, hsr2, rfl⟩ := hr
    rw [List.mem_map] at hsr2
    obtain ⟨srow, hsrow, rfl⟩ := hsr2
    have hacc := accuracy_of_store_row hdist (by norm_num [primaryThreshold]) hsrow env.chat q
    exact ⟨primaryThreshold, srow, Or.inl rfl, hsrow, hacc.1,
      hacc.1 ▸ hacc.2.1, hacc.1 ▸ hacc.2.2⟩

def distW : List ℚ → List ℚ → ℚ := fun _ _ => 1/2

def candW : CandidateRecord :=
  { id := "a", name := "Alice", cv_info := "react dev",
    embedding := some [1], linkedin_url := none, cv_url := none }

def tableW : List CandidateRecord := [candW]

def srowW : StoreRow :=
  { id := "a", name := "Alice", cv_info := "react dev",
    similarity := 1/2, linkedin_url := none, cv_url := none }

theorem mcW : match_candidates distW tableW [1] primaryThreshold matchLimit
    = [srowW] := by
  simp [match_candidates, distW, tableW, candW, srowW, primaryThreshold, matchLimit]
  norm_num

def envC2 : Env :=
  { apiKey := some ("k"), body := .ok (.jstr ("frontend")),
    embed := fun _ => .ok [1],
    rpc := fun e t c =>
      .ok ((match_candidates distW tableW e t c).map storeRowToResponse),
    chat := chatC3 }

theorem envC2_post :
    (POST envC2).1
      = .ok [toMatchResult envC2.chat ("frontend") (storeRowToResponse srowW)] := by
  have h := (POST_ok_shape envC2 ("frontend") [1] [storeRowToResponse srowW]
    rfl (by decide) rfl rfl (by simp) (Or.inl (by simp [envC2, mcW]))).1
  simpa using h

/-- C2 witness: in a concrete store of one embedded candidate at
similarity 1/2, the shaped result's accuracy is the rounded similarity
percentage of the store row and lies in [0, 100]. -/
theorem c2_accuracy_rounded_witness :
    ∃ t srow, (t = primaryThreshold ∨ t = fallbackThreshold) ∧
      srow ∈ match_candidates distW tableW [1] t matchLimit ∧
      (toMatchResult envC2.chat ("frontend") (storeRowToResponse srowW)).accuracy
          = jsRound (srow.similarity * 100) ∧
      0 ≤ (toMatchResult envC2.chat ("frontend") (storeRowToResponse srowW)).accuracy ∧
      (toMatchResult envC2.chat ("frontend") (storeRowToResponse srowW)).accuracy ≤ 100 :=
  c2_accuracy_rounded distW tableW envC2 ("frontend") [1]
    [toMatchResult envC2.chat ("frontend") (storeRowToResponse srowW)]
    (fun a b => by norm_num [distW]) rfl (by decide) rfl rfl rfl
    envC2_post
    (toMatchResult envC2.chat ("frontend") (storeRowToResponse srowW))
    (List.mem_cons_self _ _)

end Recruiting
